import Mathlib

/-!
Verification of the SVG→TGS batch-conversion bot (src/batch_converter.py,
src/svg_validator.py, src/enhanced_bot.py, src/database.py) against its
natural-language specification.

The Python source is shallowly embedded: pure functions become Lean
functions, external collaborators (file download, the TGS converter from
the external `converter` module, the network transport, the filesystem)
are passed in as explicit oracle environments, and raised exceptions
become `Except.error`.  Time is modelled in integral milliseconds and
numeric values in exact rationals.

Layout: all definitions first, then the supporting lemmas and the claim
theorems.
-/

namespace BatchConverter

/-- Environment of external collaborators used by
`BatchConverter._convert_single_file`: the validator result for a local
path, the converter (`SVGToTGSConverter.convert` from the external
`converter` module), and `os.path.getsize`.  `Except.error` models a
raised exception carrying `str(e)`. -/
structure ConvEnv where
  validate : String → Bool × String
  convert : String → Except String String
  getsize : String → Except String Nat

/-- `Path(name).stem` from `pathlib`: the final path component without
its last suffix; a dot at position 0 of the component or at its very end
does not start a suffix. -/
def pathStem (s : String) : String :=
  let base := (s.splitOn "/").getLastD s
  let cs := base.data
  match cs.reverse.findIdx? (· = '.') with
  | none => base
  | some r =>
    let i := cs.length - 1 - r
    if 0 < i ∧ i < cs.length - 1 then String.mk (cs.take i) else base

/-- The per-item result dictionary built by `_convert_single_file`:
either `success=True` with `file`, `tgs_path`, `tgs_size`, `output_name`
keys, or `success=False` with `file` and `error` keys. -/
inductive SingleRes where
  | ok (file tgs_path : String) (tgs_size : Nat) (output_name : String)
  | fail (file error : String)
deriving DecidableEq

/-- The `file` key of the result dictionary (present in both shapes). -/
def SingleRes.file : SingleRes → String
  | .ok f _ _ _ => f
  | .fail f _ => f

/-- Whether the `success` key of the result dictionary is `True`. -/
def SingleRes.isOk : SingleRes → Bool
  | .ok _ _ _ _ => true
  | .fail _ _ => false

/-- The `output_name` key, present only on successful results. -/
def SingleRes.outputName : SingleRes → Option String
  | .ok _ _ _ o => some o
  | .fail _ _ => none

/-- `BatchConverter._convert_single_file` (batch_converter.py:78-111):
validate, then convert, then stat the output; the whole body sits in a
`try/except` that turns any raised exception into a failure dictionary,
so the function is total. -/
def convertSingleFile (env : ConvEnv) (file_path original_name : String) : SingleRes :=
  match env.validate file_path with
  | (false, error_message) => .fail original_name error_message
  | (true, _) =>
    match env.convert file_path with
    | .error e => .fail original_name e
    | .ok tgs_path =>
      match env.getsize tgs_path with
      | .error e => .fail original_name e
      | .ok tgs_size =>
          .ok original_name tgs_path tgs_size (pathStem original_name ++ ".tgs")

/-- The `results` dictionary accumulated by `convert_batch`. -/
structure BatchResults where
  successful : List SingleRes
  failed : List (String × String)
  total_processed : Nat
  success_count : Nat
  error_count : Nat
deriving DecidableEq

def emptyResults : BatchResults := ⟨[], [], 0, 0, 0⟩

/-- One iteration of the result-processing loop of `convert_batch`
(batch_converter.py:56-74).  `_convert_single_file` never raises, so the
`isinstance(result, Exception)` arm of the loop is unreachable and the
loop sees exactly the per-item dictionaries; for a failure the loop
records `original_names[i]`, which equals the `file` key the task put in
its own dictionary. -/
def processOne (acc : BatchResults) (r : SingleRes) : BatchResults :=
  let acc := { acc with total_processed := acc.total_processed + 1 }
  match r with
  | .ok _ _ _ _ =>
      { acc with successful := acc.successful ++ [r],
                 success_count := acc.success_count + 1 }
  | .fail name err =>
      { acc with failed := acc.failed ++ [(name, err)],
                 error_count := acc.error_count + 1 }

/-- The per-item fan-out of `convert_batch` (batch_converter.py:45-53):
one task per `zip(file_paths, original_names)` pair, gathered
all-settle; each task is the pure `convertSingleFile`. -/
def gatherResults (env : ConvEnv) (file_paths original_names : List String) :
    List SingleRes :=
  (file_paths.zip original_names).map (fun pr => convertSingleFile env pr.1 pr.2)

/-- `BatchConverter.convert_batch` (batch_converter.py:23-76): raises
`ValueError` when more than `max_files = 15` paths are given, otherwise
folds the gathered per-item results into the `results` dictionary. -/
def convertBatch (env : ConvEnv) (file_paths original_names : List String) :
    Except String BatchResults :=
  if file_paths.length > 15 then
    .error "Too many files. Maximum 15 files allowed per batch."
  else
    .ok ((gatherResults env file_paths original_names).foldl processOne emptyResults)

/-- The `tgs_path` / `output_name` keys of a successful-conversion
dictionary, as consumed by `create_result_archive`. -/
structure OkConv where
  tgs_path : String
  output_name : String
deriving DecidableEq

/-- View of a successful result dictionary through the two keys
`create_result_archive` reads.  Only ever applied to `success=True`
dictionaries (a missing key would be a `KeyError` in Python). -/
def SingleRes.toOkConv : SingleRes → OkConv
  | .ok _ t _ o => ⟨t, o⟩
  | .fail _ _ => ⟨"", ""⟩

/-- Filesystem / zip-writing oracle for `create_result_archive`:
`os.path.exists` for each source path, and whether `zipfile.write` /
`zipfile.writestr` raise when writing a given member. -/
structure FsEnv where
  pathExists : String → Bool
  writeFails : String → Bool
  writestrFails : Bool

/-- One numbered block of the `ERRORS.txt` report
(batch_converter.py:140-141). -/
def errorBlock (i : Nat) (file error : String) : String :=
  toString i ++ ". File: " ++ file ++ "\n   Error: " ++ error ++ "\n\n"

/-- The report header (batch_converter.py:136-137); the second line is
`"=" * 30`. -/
def reportHeader : String :=
  "CONVERSION ERRORS REPORT\n" ++ "==============================" ++ "\n\n"

/-- The `error_report` accumulation loop over `enumerate(failed, 1)`
(batch_converter.py:135-141). -/
def buildErrorReport (failed : List (String × String)) : String :=
  (failed.enumFrom 1).foldl (fun acc p => acc ++ errorBlock p.1 p.2.1 p.2.2) reportHeader

/-- Declarative form of the numbered failure list: block `i` for the
first remaining failure, `i+1` for the next, and so on, in order. -/
def reportBody (i : Nat) : List (String × String) → String
  | [] => ""
  | f :: fs => errorBlock i f.1 f.2 ++ reportBody (i + 1) fs

/-- The member-writing loop over `successful_conversions`
(batch_converter.py:127-132): a source file that no longer exists is
silently skipped; a raising `zipf.write` aborts the loop with an
exception. Produces the archive members as (member name, source path)
pairs. -/
def addEntries (env : FsEnv) : List OkConv → Except String (List (String × String))
  | [] => .ok []
  | c :: cs =>
    if env.pathExists c.tgs_path then
      if env.writeFails c.tgs_path then
        .error "zip write failed"
      else
        match addEntries env cs with
        | .error e => .error e
        | .ok es => .ok (("converted/" ++ c.output_name, c.tgs_path) :: es)
    else addEntries env cs

/-- `BatchConverter.create_result_archive` (batch_converter.py:113-152).
The returned Boolean records whether the zip file is still on disk
afterwards: `true` when the archive is handed to the caller, `false`
when the `except` branch has unlinked the partially written file before
re-raising. -/
def createResultArchive (env : FsEnv) (successful : List OkConv)
    (failed : List (String × String)) :
    Except String (List (String × String)) × Bool :=
  match addEntries env successful with
  | .error e => (.error e, false)
  | .ok es =>
    if failed.isEmpty then (.ok es, true)
    else if env.writestrFails then (.error "zip writestr failed", false)
    else (.ok (es ++ [("ERRORS.txt", buildErrorReport failed)]), true)

/-- Whether an `Except` value is a success. -/
def exceptOk {ε α : Type} : Except ε α → Bool
  | .ok _ => true
  | .error _ => false

end BatchConverter

namespace SvgValidator

/-- ASCII lower-casing of one character (the effect of Python
`str.lower()` on the ASCII inputs the validator compares against). -/
def charLower (c : Char) : Char :=
  if 'A' ≤ c ∧ c ≤ 'Z' then Char.ofNat (c.toNat + 32) else c

/-- Python `str.lower()` over the characters of a string. -/
def lowerChars (cs : List Char) : List Char := cs.map charLower

/-- Python `str.strip()`: drop leading and trailing whitespace. -/
def stripChars (cs : List Char) : List Char :=
  ((cs.dropWhile Char.isWhitespace).reverse.dropWhile Char.isWhitespace).reverse

/-- Integer value of a digit string. -/
def digitsVal (ds : List Char) : Nat :=
  ds.foldl (fun a c => a * 10 + (c.toNat - 48)) 0

/-- The leading-number regex `^(\d*\.?\d+)` of `_parse_dimension`
(svg_validator.py:119), with Python backtracking semantics: a trailing
bare dot is not consumed. -/
def leadingNumber (cs : List Char) : Option ℚ :=
  let ds1 := cs.takeWhile Char.isDigit
  let rest := cs.drop ds1.length
  match rest with
  | '.' :: rest2 =>
    let ds2 := rest2.takeWhile Char.isDigit
    if ds2.length > 0 then
      some ((digitsVal ds1 : ℚ) + (digitsVal ds2 : ℚ) / ((10 : ℚ) ^ ds2.length))
    else if ds1.length > 0 then some (digitsVal ds1 : ℚ)
    else none
  | _ => if ds1.length > 0 then some (digitsVal ds1 : ℚ) else none

/-- `SVGValidator._parse_dimension` (svg_validator.py:97-123); the
argument is `root.get(attr)`, which is `None` for a missing attribute,
and `if not dimension_str` also catches the empty string. -/
def parseDimension : Option String → Option ℚ
  | none => none
  | some s0 =>
    if s0 = "" then none
    else
      let cs := lowerChars (stripChars s0.data)
      if cs.getLast? = some '%' then none
      else leadingNumber cs

/-- Python `float()` restricted to optionally signed decimal literals;
any other input makes it raise `ValueError`, modelled as `none`. -/
def parseDecimal (cs : List Char) : Option ℚ :=
  let ds1 := cs.takeWhile Char.isDigit
  let rest := cs.drop ds1.length
  match rest with
  | [] => if ds1.length > 0 then some (digitsVal ds1 : ℚ) else none
  | '.' :: rest2 =>
    let ds2 := rest2.takeWhile Char.isDigit
    if (rest2.drop ds2.length).length > 0 then none
    else if ds1.length = 0 ∧ ds2.length = 0 then none
    else some ((digitsVal ds1 : ℚ) + (digitsVal ds2 : ℚ) / ((10 : ℚ) ^ ds2.length))
  | _ => none

def pyFloat (s : String) : Option ℚ :=
  match stripChars s.data with
  | '-' :: cs => (parseDecimal cs).map Neg.neg
  | '+' :: cs => parseDecimal cs
  | cs => parseDecimal cs

/-- Python `int()` on a float / rational: truncation toward zero. -/
def pyInt (q : ℚ) : Int := if q < 0 then -((-q).floor) else q.floor

/-- Accumulating pass of `str.split()`: `cur` holds the reversed current
word. -/
def splitWsGo (cur : List Char) : List Char → List String
  | [] => if cur.isEmpty then [] else [String.mk cur.reverse]
  | c :: cs =>
    if c.isWhitespace then
      if cur.isEmpty then splitWsGo [] cs
      else String.mk cur.reverse :: splitWsGo [] cs
    else splitWsGo (c :: cur) cs

/-- Python `str.split()` with no separator: split on whitespace runs,
dropping empty pieces. -/
def pySplit (s : String) : List String := splitWsGo [] s.data

/-- The data `validate_svg_file` inspects about a successfully parsed
SVG document: root tag, the `width` / `height` / `viewBox` attributes
(`none` for a missing attribute), the length of
`ET.tostring(root, encoding='unicode')`, and `len(list(root.iter()))`. -/
structure SvgDoc where
  tag : String
  widthAttr : Option String
  heightAttr : Option String
  viewBox : Option String
  serializedLength : Nat
  elementCount : Nat
deriving DecidableEq

/-- Outcome of `ET.parse(svg_path)`: a parse error (`ET.ParseError`),
any other raised exception with its text, or the parsed document. -/
inductive ParseResult where
  | parseError
  | exn (msg : String)
  | ok (doc : SvgDoc)
deriving DecidableEq

/-- `SVGValidator._is_svg_element` (svg_validator.py:60-64): the
lower-cased root tag is `svg` or ends with `\x7dsvg` (a namespaced
tag). -/
def isSvgElement (doc : SvgDoc) : Bool :=
  lowerChars doc.tag.data == "svg".data
    || "\x7dsvg".data.isSuffixOf (lowerChars doc.tag.data)

/-- `SVGValidator._extract_dimensions` (svg_validator.py:66-95): direct
`width`/`height` attributes first, else the `viewBox` (an empty or
missing attribute is falsy; a `float()` failure is caught and yields
`(None, None)`). -/
def extractDimensions (doc : SvgDoc) : Option Int × Option Int :=
  match parseDimension doc.widthAttr, parseDimension doc.heightAttr with
  | some w, some h => (some (pyInt w), some (pyInt h))
  | _, _ =>
    match doc.viewBox with
    | some vb =>
      if vb = "" then (none, none)
      else
        let vals := pySplit vb
        if vals.length = 4 then
          match pyFloat (vals.getD 2 ""), pyFloat (vals.getD 3 "") with
          | some w, some h => (some (pyInt w), some (pyInt h))
          | _, _ => (none, none)
        else (none, none)
    | none => (none, none)

/-- `SVGValidator._validate_content` (svg_validator.py:125-152). -/
def validateContent (doc : SvgDoc) : Bool :=
  if doc.serializedLength > 1024 * 1024 then false
  else if doc.elementCount > 1000 then false
  else true

/-- `SVGValidator.validate_svg_file` (svg_validator.py:17-58) with
`required_width = required_height = 512`. -/
def validate_svg_file : ParseResult → Bool × String
  | .parseError =>
      (false, "Invalid SVG file format. The file appears to be corrupted.")
  | .exn msg => (false, "Error validating SVG file: " ++ msg)
  | .ok doc =>
    if ¬ isSvgElement doc then (false, "File is not a valid SVG format.")
    else
      match extractDimensions doc with
      | (some w, some h) =>
        if w ≠ 512 ∨ h ≠ 512 then
          (false, "SVG must be exactly 512x512 pixels. Your file is " ++
            toString w ++ "x" ++ toString h ++ " pixels.")
        else if ¬ validateContent doc then
          (false,
           "SVG content is too complex or contains unsupported elements for TGS conversion.")
        else (true, "SVG is valid for TGS conversion.")
      | _ =>
        (false,
         "Could not determine SVG dimensions. Please ensure your SVG has explicit width and height attributes.")

end SvgValidator

namespace EnhancedBot

/-- The per-user aggregation state of `EnhancedSVGToTGSBot`:
`user_files[uid]` (`files`), the deadline of the pending
`_process_user_batch_after_delay` task (`timer`, in ms),
whether `user_waiting_message` holds an entry (`waitingMsg`), the
batches handed to processing so far (`fired`), and the submissions
rejected with the capacity notification (`rejected`). -/
structure SchedState (α : Type) where
  files : List α
  timer : Option Nat
  waitingMsg : Bool
  fired : List (List α)
  rejected : List α
deriving DecidableEq

/-- State of an idle key: no buffered files, no pending timer. -/
def initState {α : Type} : SchedState α := ⟨[], none, false, [], []⟩

/-- `process_user_batch` reached through an uncancelled timer
(enhanced_bot.py:595-607): if the buffer is non-empty the captured file
list becomes a fired batch and the buffer and timer entry are cleared.
(The later message editing and per-item conversion are outside this
scheduler model.) -/
def fireBatch {α : Type} (s : SchedState α) : SchedState α :=
  if s.files.isEmpty then { s with timer := none }
  else { s with files := [], timer := none, fired := s.fired ++ [s.files] }

/-- Let a pending timer whose deadline has been reached by time `t` fire
before the next event is handled (`asyncio.sleep(0.1)` completing). -/
def deliverDue {α : Type} (t : Nat) (s : SchedState α) : SchedState α :=
  match s.timer with
  | some d => if d ≤ t then fireBatch s else s
  | none => s

/-- `handle_multiple_svg_files` (enhanced_bot.py:538-579) at time `t`
with quiescence `q`: a buffer already holding 15 files rejects the
submission with a notification and changes nothing else; otherwise the
file is appended, the waiting message is created for the first file, the
existing timer (if any) is cancelled and a fresh one is started with
deadline `t + q`. -/
def arrive {α : Type} (q t : Nat) (f : α) (s : SchedState α) : SchedState α :=
  if 15 ≤ s.files.length then { s with rejected := s.rejected ++ [f] }
  else
    let files := s.files ++ [f]
    { s with files := files,
             waitingMsg := if files.length = 1 then true else s.waitingMsg,
             timer := some (t + q) }

/-- Run a sequence of timed arrivals for one key, firing any due timer
before each arrival is handled. -/
def run {α : Type} (q : Nat) (s : SchedState α) : List (Nat × α) → SchedState α
  | [] => s
  | (t, f) :: rest => run q (arrive q t f (deliverDue t s)) rest

/-- After the last arrival, time passes every deadline, so a pending
timer fires. -/
def finalize {α : Type} (s : SchedState α) : SchedState α :=
  match s.timer with
  | some _ => fireBatch s
  | none => s

/-- Deadline of the pending timer after arrivals `ts` run from a state
whose pending deadline was `d`: the last arrival time plus `q`, or `d`
when there is no arrival. -/
def endDeadline {α : Type} (q d : Nat) : List (Nat × α) → Nat
  | [] => d
  | (t, _) :: ts => endDeadline q (t + q) ts

/-- Boolean check that consecutive arrivals are in strictly increasing
time order with every inter-arrival gap below `q`. -/
def gapsOk {α : Type} (q : Nat) : List (Nat × α) → Bool
  | [] => true
  | [_] => true
  | a :: b :: ts => (decide (a.1 < b.1) && decide (b.1 < a.1 + q)) && gapsOk q (b :: ts)

/-- `asyncio.sleep(0.1)` of `_process_user_batch_after_delay`
(enhanced_bot.py:584), in milliseconds. -/
def quiescenceMs : Nat := 100

/-- Oracles for one run of `process_user_batch`
(enhanced_bot.py:595-725): downloading a submission to a temp path,
validating it, converting it (`SVGToTGSConverter.convert`), and whether
`send_document` for a converted file returns without raising. -/
structure BotEnv where
  download : String → Except String String
  validate : String → Bool × String
  convert : String → Except String String
  sendOk : String → Bool

/-- One iteration of the per-file loop of `process_user_batch`
(enhanced_bot.py:618-684), tracking the temp files on disk: a download
failure is caught by the outer per-file handler before any temp file
exists; the `finally` block always unlinks the downloaded input; a
successful conversion leaves its `.tgs` output on disk and reports it
for sending. -/
def processItem (env : BotEnv) (it : String) (disk : List String) :
    List String × Option String :=
  match env.download it with
  | .error _ => (disk, none)
  | .ok p =>
    let d1 := disk ++ [p]
    match env.validate p with
    | (false, _) => (d1.erase p, none)
    | (true, _) =>
      match env.convert p with
      | .error _ => (d1.erase p, none)
      | .ok tgs => ((d1 ++ [tgs]).erase p, some tgs)

/-- The whole per-file loop, returning the disk contents and the
successful `.tgs` paths in submission order. -/
def processItems (env : BotEnv) : List String → List String → List String × List String
  | [], disk => (disk, [])
  | it :: its, disk =>
    let r := processItem env it disk
    let rest := processItems env its r.1
    (rest.1, r.2.toList ++ rest.2)

/-- The sending loop over `successful_conversions`
(enhanced_bot.py:689-701): the unlink of the sent `.tgs` file sits after
the awaited `send_document` call inside the `try` block, so when sending
raises, the `except` merely logs and the unlink is skipped. -/
def sendAll (env : BotEnv) : List String → List String → List String
  | [], disk => disk
  | tgs :: rest, disk =>
    if env.sendOk tgs then sendAll env rest (disk.erase tgs)
    else sendAll env rest disk

/-- Temp files remaining on disk after `process_user_batch` handles a
batch of submissions starting from disk contents `disk`. -/
def processUserBatchDisk (env : BotEnv) (items : List String) (disk : List String) :
    List String :=
  let r := processItems env items disk
  sendAll env r.2 r.1

end EnhancedBot

namespace Database

/-- Python `round` to an integer: round half to even (banker's
rounding), on exact rationals. -/
def roundHalfEven (q : ℚ) : ℤ :=
  if Int.fract q < 1/2 then ⌊q⌋
  else if 1/2 < Int.fract q then ⌊q⌋ + 1
  else if Even ⌊q⌋ then ⌊q⌋ else ⌊q⌋ + 1

/-- Python `round(x, 2)` on exact rationals. -/
def pyRound2 (q : ℚ) : ℚ := (roundHalfEven (q * 100) : ℚ) / 100

/-- The `success_rate` field of `Database.get_stats`
(database.py:218):
`round((success_conversions / total_conversions * 100) if total_conversions > 0 else 0, 2)`. -/
def successRate (success_conversions total_conversions : Nat) : ℚ :=
  pyRound2 (if total_conversions > 0 then
              (success_conversions : ℚ) / (total_conversions : ℚ) * 100
            else 0)

end Database

/-! ### Concrete inputs used by witnesses and counterexamples -/

/-- A converter environment with one invalid file, one file whose
conversion raises, and everything else succeeding. -/
def sampleEnv : BatchConverter.ConvEnv :=
  { validate := fun p =>
      if p = "bad.svg" then
        (false, "SVG must be exactly 512x512 pixels. Your file is 100x100 pixels.")
      else (true, "SVG is valid for TGS conversion.")
  , convert := fun p =>
      if p = "crash.svg" then .error "conversion crashed" else .ok (p ++ ".tmp")
  , getsize := fun _ => .ok 2048 }

/-- The batch result of running `sampleEnv` over one valid and one
invalid file. -/
def sampleBatchRes : BatchConverter.BatchResults :=
  (BatchConverter.gatherResults sampleEnv ["a.svg", "bad.svg"] ["a.svg", "bad.svg"]).foldl
    BatchConverter.processOne BatchConverter.emptyResults

/-- A filesystem in which every converted output still exists and no
zip write fails. -/
def allGoodFs : BatchConverter.FsEnv :=
  { pathExists := fun _ => true
  , writeFails := fun _ => false
  , writestrFails := false }

/-- Sixteen rapid-fire submissions for one key: file `i` arrives at time
`i` ms, so every inter-arrival gap is 1 ms, far below the quiescence
duration. -/
def arrivals16 : List (Nat × Nat) := (List.range 16).map (fun i => (i, i))

/-- A parsed 512×512 SVG document that passes every validator check. -/
def validDoc : SvgValidator.SvgDoc :=
  ⟨"svg", some "512", some "512", none, 100, 3⟩

/-- A bot run in which download, validation and conversion succeed but
`send_document` raises (for example a network error during upload). -/
def leakEnv : EnhancedBot.BotEnv :=
  { download := fun _ => .ok "dl0.svg"
  , validate := fun _ => (true, "SVG is valid for TGS conversion.")
  , convert := fun _ => .ok "out0.tgs"
  , sendOk := fun _ => false }

/-- The same run with delivery succeeding. -/
def okSendEnv : EnhancedBot.BotEnv :=
  { download := fun _ => .ok "dl0.svg"
  , validate := fun _ => (true, "SVG is valid for TGS conversion.")
  , convert := fun _ => .ok "out0.tgs"
  , sendOk := fun _ => true }

/-! ### Supporting lemmas -/

namespace BatchConverter

theorem processOne_counts (acc : BatchResults) (r : SingleRes) :
    (processOne acc r).success_count + (processOne acc r).error_count
      = acc.success_count + acc.error_count + 1 ∧
    (processOne acc r).total_processed = acc.total_processed + 1 ∧
    (processOne acc r).successful.length + (processOne acc r).failed.length
      = acc.successful.length + acc.failed.length + 1 := by
  cases r <;> simp [processOne] <;> omega

theorem foldl_processOne_counts (rs : List SingleRes) : ∀ acc : BatchResults,
    (rs.foldl processOne acc).success_count + (rs.foldl processOne acc).error_count
      = acc.success_count + acc.error_count + rs.length ∧
    (rs.foldl processOne acc).total_processed = acc.total_processed + rs.length ∧
    (rs.foldl processOne acc).successful.length + (rs.foldl processOne acc).failed.length
      = acc.successful.length + acc.failed.length + rs.length := by
  induction rs with
  | nil => intro acc; simp
  | cons r rs ih =>
    intro acc
    have h1 := processOne_counts acc r
    have h2 := ih (processOne acc r)
    simp only [List.foldl_cons, List.length_cons]
    exact ⟨by omega, by omega, by omega⟩

theorem gatherResults_length (env : ConvEnv) (ps ns : List String) :
    (gatherResults env ps ns).length = min ps.length ns.length := by
  simp [gatherResults]

end BatchConverter

/-! ### Claim theorems -/

open BatchConverter in
/-- C2: for every batch result produced by `convert_batch`, the success
count plus the failure count equals the number of recorded outcomes,
which equals the number of items submitted to that fire, however the
individual items fare. -/
theorem C2_batch_counts_reconcile (env : ConvEnv) (paths names : List String)
    (hlen : paths.length = names.length) (hcap : paths.length ≤ 15) :
    ∃ res : BatchResults,
      convertBatch env paths names = Except.ok res ∧
      res.success_count + res.error_count = res.total_processed ∧
      res.total_processed = paths.length ∧
      res.successful.length + res.failed.length = res.total_processed := by
  have h := foldl_processOne_counts (gatherResults env paths names) emptyResults
  have hg := gatherResults_length env paths names
  rw [hlen, min_self] at hg
  simp only [emptyResults, List.length_nil] at h
  refine ⟨(gatherResults env paths names).foldl processOne emptyResults, ?_, ?_, ?_, ?_⟩
  · simp only [convertBatch]
    rw [if_neg (by omega)]
  · simp only [emptyResults]
    omega
  · simp only [emptyResults]
    omega
  · simp only [emptyResults]
    omega

/-- Witness for C2 at a concrete two-item batch with one success and one
validation failure. -/
theorem C2_batch_counts_reconcile_witness :
    (["a.svg", "bad.svg"] : List String).length = (["a.svg", "bad.svg"] : List String).length ∧
    (["a.svg", "bad.svg"] : List String).length ≤ 15 ∧
    ∃ res : BatchConverter.BatchResults,
      BatchConverter.convertBatch sampleEnv ["a.svg", "bad.svg"] ["a.svg", "bad.svg"]
        = Except.ok res ∧
      res.success_count + res.error_count = res.total_processed ∧
      res.total_processed = (["a.svg", "bad.svg"] : List String).length ∧
      res.successful.length + res.failed.length = res.total_processed :=
  ⟨rfl, by decide,
   C2_batch_counts_reconcile sampleEnv ["a.svg", "bad.svg"] ["a.svg", "bad.svg"]
     rfl (by decide)⟩

open BatchConverter in
/-- C4: the per-item fan-out of `convert_batch` yields exactly one
outcome per submitted `(path, name)` pair; the outcome at position `i`
is the pure per-item conversion of that pair alone, so replacing every
sibling item (in particular making them fail at any stage) leaves
outcome `i` unchanged. -/
theorem C4_outcome_isolation (env : ConvEnv) (ps ns ps2 ns2 : List String) (i : Nat)
    (h1 : i < (ps.zip ns).length) (h2 : i < (ps2.zip ns2).length)
    (hagree : (ps.zip ns).get ⟨i, h1⟩ = (ps2.zip ns2).get ⟨i, h2⟩) :
    (gatherResults env ps ns).length = (ps.zip ns).length ∧
    (gatherResults env ps ns).get ⟨i, by simpa [gatherResults] using h1⟩
      = convertSingleFile env ((ps.zip ns).get ⟨i, h1⟩).1 ((ps.zip ns).get ⟨i, h1⟩).2 ∧
    (gatherResults env ps ns).get ⟨i, by simpa [gatherResults] using h1⟩
      = (gatherResults env ps2 ns2).get ⟨i, by simpa [gatherResults] using h2⟩ := by
  have h := hagree
  rw [List.get_eq_getElem, List.get_eq_getElem, List.getElem_zip, List.getElem_zip,
    Prod.mk.injEq] at h
  refine ⟨by simp [gatherResults], ?_, ?_⟩
  · simp [gatherResults]
  · simp only [gatherResults, List.get_eq_getElem, List.getElem_map, List.getElem_zip]
    rw [h.1, h.2]

/-- Witness for C4: outcome 0 is identical across two batches whose
second item differs (failing conversion in one, absent in the other). -/
theorem C4_outcome_isolation_witness :
    ((["a.svg", "crash.svg"] : List String).zip ["a.svg", "crash.svg"]).get
        ⟨0, by decide⟩
      = ((["a.svg", "other.svg"] : List String).zip ["a.svg", "other.svg"]).get
        ⟨0, by decide⟩ ∧
    (BatchConverter.gatherResults sampleEnv ["a.svg", "crash.svg"] ["a.svg", "crash.svg"]).get
        ⟨0, by decide⟩
      = (BatchConverter.gatherResults sampleEnv ["a.svg", "other.svg"] ["a.svg", "other.svg"]).get
        ⟨0, by decide⟩ :=
  ⟨by decide,
   (C4_outcome_isolation sampleEnv ["a.svg", "crash.svg"] ["a.svg", "crash.svg"]
      ["a.svg", "other.svg"] ["a.svg", "other.svg"] 0 (by decide) (by decide)
      (by decide)).2.2⟩

namespace BatchConverter

theorem mem_foldl_successful (rs : List SingleRes) : ∀ (acc : BatchResults)
    (r : SingleRes), r ∈ (rs.foldl processOne acc).successful →
    r ∈ acc.successful ∨ (r ∈ rs ∧ r.isOk = true) := by
  induction rs with
  | nil => intro acc r h; exact Or.inl h
  | cons r0 rs ih =>
    intro acc r h
    rcases ih (processOne acc r0) r h with h1 | h1
    · cases r0 with
      | ok a b c d =>
        simp [processOne] at h1
        rcases h1 with h1 | h1
        · exact Or.inl h1
        · exact Or.inr ⟨by simp [h1], by simp [h1, SingleRes.isOk]⟩
      | fail a b => exact Or.inl h1
    · exact Or.inr ⟨List.mem_cons_of_mem _ h1.1, h1.2⟩

theorem convertSingleFile_cases (env : ConvEnv) (p n : String) :
    (∃ e, convertSingleFile env p n = .fail n e) ∨
    (∃ t sz, convertSingleFile env p n = .ok n t sz (pathStem n ++ ".tgs")) := by
  unfold convertSingleFile
  split
  · exact Or.inl ⟨_, rfl⟩
  · split
    · exact Or.inl ⟨_, rfl⟩
    · split
      · exact Or.inl ⟨_, rfl⟩
      · exact Or.inr ⟨_, _, rfl⟩

theorem convertSingleFile_file (env : ConvEnv) (p n : String) :
    (convertSingleFile env p n).file = n := by
  rcases convertSingleFile_cases env p n with ⟨e, h⟩ | ⟨t, sz, h⟩ <;> rw [h] <;> rfl

theorem convertSingleFile_outputName (env : ConvEnv) (p n : String)
    (h : (convertSingleFile env p n).isOk = true) :
    (convertSingleFile env p n).outputName = some (pathStem n ++ ".tgs") := by
  rcases convertSingleFile_cases env p n with ⟨e, hh⟩ | ⟨t, sz, hh⟩
  · rw [hh] at h
    simp [SingleRes.isOk] at h
  · rw [hh]
    rfl

theorem foldl_processOne_failed_count (rs : List SingleRes) : ∀ acc : BatchResults,
    (rs.foldl processOne acc).failed.length + acc.error_count
      = (rs.foldl processOne acc).error_count + acc.failed.length := by
  induction rs with
  | nil =>
    intro acc
    simp only [List.foldl_nil]
    omega
  | cons r rs ih =>
    intro acc
    have h := ih (processOne acc r)
    simp only [List.foldl_cons]
    cases r <;>
      simp only [processOne, List.length_append, List.length_singleton] at h ⊢ <;> omega

theorem addEntries_clean (env : FsEnv) : ∀ cs : List OkConv,
    (∀ c ∈ cs, env.pathExists c.tgs_path = true ∧ env.writeFails c.tgs_path = false) →
    addEntries env cs
      = .ok (cs.map (fun c => ("converted/" ++ c.output_name, c.tgs_path))) := by
  intro cs
  induction cs with
  | nil => intro _; rfl
  | cons c cs ih =>
    intro h
    have hc := h c (List.mem_cons_self c cs)
    have hrest := ih (fun x hx => h x (List.mem_cons_of_mem c hx))
    unfold addEntries
    rw [if_pos hc.1, if_neg (by rw [hc.2]; exact Bool.false_ne_true), hrest]
    simp

theorem foldl_report (fs : List (String × String)) : ∀ (i : Nat) (acc : String),
    (fs.enumFrom i).foldl (fun a p => a ++ errorBlock p.1 p.2.1 p.2.2) acc
      = acc ++ reportBody i fs := by
  induction fs with
  | nil => intro i acc; simp [List.enumFrom, reportBody]
  | cons f fs ih =>
    intro i acc
    simp only [List.enumFrom, List.foldl_cons, reportBody, ih, String.append_assoc]

end BatchConverter

open BatchConverter in
/-- C6: archive packaging is all-or-nothing — after
`create_result_archive`, the zip file is on disk exactly when the call
returned it successfully; on any write failure the `except` branch has
unlinked the partial file before re-raising, so a half-built archive is
never left addressable. -/
theorem C6_archive_all_or_nothing (env : FsEnv) (succ : List OkConv)
    (failed : List (String × String)) :
    (createResultArchive env succ failed).2
      = exceptOk (createResultArchive env succ failed).1 := by
  unfold createResultArchive
  rcases addEntries env succ with e | es
  · rfl
  · by_cases hf : failed.isEmpty <;> by_cases hw : env.writestrFails <;>
      simp [hf, hw, exceptOk]

open BatchConverter in
/-- C5: with every converted output still on disk and no write failing,
the archive built from a batch result stores exactly one member
`converted/<output_name>` per success, in order, where the success's
`output_name` is the original name's stem plus the fixed `.tgs`
extension; `ERRORS.txt` is a member iff the failure count is positive,
and its text is the header followed by the numbered failure blocks in
outcome order. -/
theorem C5_archive_layout (env : ConvEnv) (fs : FsEnv) (paths names : List String)
    (res : BatchResults)
    (hok : convertBatch env paths names = Except.ok res)
    (hex : ∀ c ∈ res.successful.map SingleRes.toOkConv, fs.pathExists c.tgs_path = true)
    (hw : ∀ c ∈ res.successful.map SingleRes.toOkConv, fs.writeFails c.tgs_path = false)
    (hws : fs.writestrFails = false) :
    createResultArchive fs (res.successful.map SingleRes.toOkConv) res.failed
      = (Except.ok ((res.successful.map SingleRes.toOkConv).map
            (fun c => ("converted/" ++ c.output_name, c.tgs_path))
          ++ if res.failed.isEmpty then []
             else [("ERRORS.txt", buildErrorReport res.failed)]), true) ∧
    (res.failed.isEmpty = false ↔ 0 < res.error_count) ∧
    (∀ r ∈ res.successful, r.outputName = some (pathStem r.file ++ ".tgs")) ∧
    buildErrorReport res.failed = reportHeader ++ reportBody 1 res.failed := by
  have hres : res = (gatherResults env paths names).foldl processOne emptyResults := by
    unfold convertBatch at hok
    split at hok
    · exact absurd hok (by simp)
    · injection hok with h2
      exact h2.symm
  refine ⟨?_, ?_, ?_, foldl_report res.failed 1 reportHeader⟩
  · unfold createResultArchive
    rw [addEntries_clean fs _ (fun c hc => ⟨hex c hc, hw c hc⟩)]
    by_cases hf : res.failed.isEmpty
    · simp [hf]
    · simp [hf, hws]
  · have hfail := foldl_processOne_failed_count (gatherResults env paths names) emptyResults
    rw [← hres] at hfail
    simp only [emptyResults, List.length_nil] at hfail
    constructor
    · intro hne
      have hne2 : res.failed ≠ [] := by
        intro h0
        rw [h0] at hne
        simp at hne
      have : 0 < res.failed.length := List.length_pos.mpr hne2
      omega
    · intro hpos
      have hlen : 0 < res.failed.length := by omega
      cases hfe : res.failed.isEmpty
      · rfl
      · exfalso
        rw [List.isEmpty_iff] at hfe
        rw [hfe] at hlen
        simp at hlen
  · intro r hr
    rcases mem_foldl_successful (gatherResults env paths names) emptyResults r
        (hres ▸ hr) with h1 | h1
    · simp [emptyResults] at h1
    · obtain ⟨hmem, hok2⟩ := h1
      obtain ⟨pr, _, hpr⟩ := List.mem_map.mp hmem
      rw [← hpr]
      rw [← hpr] at hok2
      rw [convertSingleFile_outputName env pr.1 pr.2 hok2,
        convertSingleFile_file env pr.1 pr.2]

/-- Witness for C5 at a concrete one-success, one-failure batch with an
intact filesystem. -/
theorem C5_archive_layout_witness :
    BatchConverter.createResultArchive allGoodFs
        (sampleBatchRes.successful.map BatchConverter.SingleRes.toOkConv)
        sampleBatchRes.failed
      = (Except.ok ((sampleBatchRes.successful.map BatchConverter.SingleRes.toOkConv).map
            (fun c => ("converted/" ++ c.output_name, c.tgs_path))
          ++ if sampleBatchRes.failed.isEmpty then []
             else [("ERRORS.txt", BatchConverter.buildErrorReport sampleBatchRes.failed)]),
         true) ∧
    (sampleBatchRes.failed.isEmpty = false ↔ 0 < sampleBatchRes.error_count) :=
  have h := C5_archive_layout sampleEnv allGoodFs ["a.svg", "bad.svg"] ["a.svg", "bad.svg"]
    sampleBatchRes rfl (by decide) (by decide) rfl
  ⟨h.1, h.2.1⟩

namespace EnhancedBot

theorem gapsOk_iff_chain {α : Type} (q : Nat) :
    ∀ ts : List (Nat × α), gapsOk q ts = true
      ↔ List.Chain' (fun a b => a.1 < b.1 ∧ b.1 < a.1 + q) ts := by
  intro ts
  induction ts with
  | nil => simp [gapsOk]
  | cons a ts ih =>
    cases ts with
    | nil => simp [gapsOk]
    | cons b ts2 =>
      rw [gapsOk, List.chain'_cons, ← ih]
      simp only [Bool.and_eq_true, decide_eq_true_eq]

/-- While every arrival comes before the pending deadline and the buffer
has room, a run only appends files and pushes the deadline out: nothing
fires and nothing is rejected. -/
theorem run_quiet {α : Type} (q : Nat) :
    ∀ (ts : List (Nat × α)) (s : SchedState α) (d : Nat),
      s.timer = some d →
      s.files ≠ [] →
      s.files.length + ts.length ≤ 15 →
      List.Chain' (fun a b => b.1 < a.1 + q) ts →
      (∀ y ∈ ts.head?, y.1 < d) →
      run q s ts
        = { s with
            files := s.files ++ ts.map Prod.snd,
            timer := some (endDeadline q d ts) } := by
  intro ts
  induction ts with
  | nil =>
    intro s d ht _ _ _ _
    simp only [run, List.map_nil, List.append_nil, endDeadline]
    cases s
    simp_all
  | cons tf ts ih =>
    intro s d ht hf hlen hch hhead
    obtain ⟨t, f⟩ := tf
    obtain ⟨hhd, htl⟩ := List.chain'_cons'.mp hch
    have hdd : deliverDue t s = s := by
      simp only [deliverDue, ht]
      rw [if_neg (Nat.not_le.mpr (hhead (t, f) (by simp)))]
    have hlt : ¬ 15 ≤ s.files.length := by
      simp only [List.length_cons] at hlen
      omega
    have hne1 : (s.files ++ [f]).length ≠ 1 := by
      simp only [List.length_append, List.length_singleton]
      have : s.files.length ≠ 0 := fun h0 => hf (List.length_eq_zero.mp h0)
      omega
    have harr : arrive q t f s
        = { s with files := s.files ++ [f], timer := some (t + q) } := by
      simp [arrive, hlt, hne1]
      intro h0
      exact absurd h0 hf
    rw [run, hdd, harr]
    rw [ih _ (t + q) rfl (by simp)
      (by simp only [List.length_append, List.length_singleton]
          simp only [List.length_cons] at hlen
          omega)
      htl (fun y hy => hhd y hy)]
    cases s
    simp [endDeadline]

end EnhancedBot

open EnhancedBot in
/-- C1 counterexample: sixteen rapid-fire submissions; after the 16th
arrival nothing has fired, the open window still holds the first 15
files, and the 16th item sits in no window at all — it was rejected —
contradicting the claimed capacity-triggered immediate fire with the new
item alone in a fresh window. -/
theorem C1_capacity_fire_counterexample :
    (run quiescenceMs initState arrivals16).fired = [] ∧
    (run quiescenceMs initState arrivals16).files = List.range 15 ∧
    (run quiescenceMs initState arrivals16).rejected = [15] ∧
    ¬ ((run quiescenceMs initState arrivals16).fired = [List.range 15] ∧
       (run quiescenceMs initState arrivals16).files = [15]) := by
  decide

open EnhancedBot in
/-- C1 (amended): when the open window already holds 15 files, a further
arrival before the pending quiescence deadline is rejected with a
notification and changes nothing else — no batch fires at that arrival
and the new item joins no window; the 15 buffered files fire only when
the quiescence timer expires. -/
theorem C1_capacity_rejects {α : Type} (q t d : Nat) (f : α) (s : SchedState α)
    (hfull : s.files.length = 15) (ht : s.timer = some d) (htd : t < d) :
    arrive q t f (deliverDue t s) = { s with rejected := s.rejected ++ [f] } ∧
    (deliverDue d { s with rejected := s.rejected ++ [f] }).fired
      = s.fired ++ [s.files] ∧
    (deliverDue d { s with rejected := s.rejected ++ [f] }).files = [] := by
  obtain ⟨fs, tm, wm, fd, rj⟩ := s
  simp only at hfull ht ⊢
  subst ht
  have hnle : ¬ d ≤ t := by omega
  have hge : 15 ≤ fs.length := by
    rw [hfull]
  have hne : fs.isEmpty = false := by
    cases hsf : fs
    · rw [hsf] at hfull
      simp at hfull
    · rfl
  refine ⟨?_, ?_, ?_⟩
  · simp only [deliverDue]
    rw [if_neg hnle]
    simp only [arrive]
    rw [if_pos hge]
  · simp only [deliverDue]
    rw [if_pos (Nat.le_refl d)]
    simp only [fireBatch, hne]
    rw [if_neg (by simp [hne])]
  · simp only [deliverDue]
    rw [if_pos (Nat.le_refl d)]
    simp only [fireBatch, hne]
    rw [if_neg (by simp [hne])]

/-- Witness for the amended C1: a full window of 15 files with a pending
deadline at 100 ms rejects an arrival at 50 ms and fires all 15 at
100 ms. -/
theorem C1_capacity_rejects_witness :
    (List.range 15).length = 15 ∧ (50 : Nat) < 100 ∧
    (EnhancedBot.arrive 100 50 (99 : Nat)
        (EnhancedBot.deliverDue 50 ⟨List.range 15, some 100, true, [], []⟩)
      = ⟨List.range 15, some 100, true, [], [99]⟩) ∧
    (EnhancedBot.deliverDue 100
        (⟨List.range 15, some 100, true, [], [99]⟩ : EnhancedBot.SchedState Nat)).fired
      = [List.range 15] :=
  have h := C1_capacity_rejects 100 50 100 (99 : Nat)
    ⟨List.range 15, some 100, true, [], []⟩ (by decide) rfl (by decide)
  ⟨by decide, by decide, h.1, by simpa using h.2.1⟩

open EnhancedBot in
/-- C3 counterexample: the same sixteen rapid-fire submissions satisfy
the every-gap-below-quiescence hypothesis, yet the single fired batch
holds only the first 15 items, not all 16 — the 16th was rejected, so
the debounce law fails without a capacity bound on N. -/
theorem C3_debounce_counterexample :
    List.Chain' (fun a b => a.1 < b.1 ∧ b.1 < a.1 + quiescenceMs) arrivals16 ∧
    (finalize (run quiescenceMs initState arrivals16)).fired = [List.range 15] ∧
    (finalize (run quiescenceMs initState arrivals16)).fired
      ≠ [arrivals16.map Prod.snd] :=
  ⟨(gapsOk_iff_chain quiescenceMs arrivals16).mp (by decide), by decide, by decide⟩

open EnhancedBot in
/-- C3 (amended): for a sequence of 1 ≤ N ≤ 15 submissions for one key
whose every inter-arrival gap is below the quiescence duration, nothing
fires and nothing is rejected during the arrivals, and exactly one batch
fires afterwards, containing all N items in submission order, leaving
the window empty; moreover every arrival into a window with room cancels
whatever timer was pending and starts a fresh one whose deadline is the
arrival time plus the quiescence duration. -/
theorem C3_debounce_single_batch {α : Type} (q t0 : Nat) (f0 : α)
    (rest : List (Nat × α))
    (hcap : rest.length + 1 ≤ 15)
    (hchain : List.Chain' (fun a b => a.1 < b.1 ∧ b.1 < a.1 + q) ((t0, f0) :: rest)) :
    (run q initState ((t0, f0) :: rest)).fired = [] ∧
    (run q initState ((t0, f0) :: rest)).rejected = [] ∧
    (finalize (run q initState ((t0, f0) :: rest))).fired = [f0 :: rest.map Prod.snd] ∧
    (finalize (run q initState ((t0, f0) :: rest))).files = [] ∧
    ∀ (t : Nat) (f : α) (s : SchedState α), s.files.length < 15 →
      (arrive q t f s).timer = some (t + q) := by
  obtain ⟨hhd, htl⟩ := List.chain'_cons'.mp hchain
  have h1 : arrive q t0 f0 (deliverDue t0 initState)
      = ⟨[f0], some (t0 + q), true, [], []⟩ := by
    simp [deliverDue, initState, arrive]
  have hrun : run q initState ((t0, f0) :: rest)
      = { (⟨[f0], some (t0 + q), true, [], []⟩ : SchedState α) with
          files := [f0] ++ rest.map Prod.snd,
          timer := some (endDeadline q (t0 + q) rest) } := by
    rw [run, h1]
    exact run_quiet q rest ⟨[f0], some (t0 + q), true, [], []⟩ (t0 + q) rfl
      (by simp) (by simp only [List.length_singleton]; omega)
      (htl.imp (fun a b h => h.2)) (fun y hy => (hhd y hy).2)
  refine ⟨by rw [hrun], by rw [hrun], ?_, ?_, ?_⟩
  · rw [hrun]
    unfold finalize fireBatch
    simp
  · rw [hrun]
    unfold finalize fireBatch
    simp
  · intro t f s hroom
    unfold arrive
    rw [if_neg (by omega)]

/-- Witness for the amended C3: three arrivals at 0, 50 and 99 ms with
the 100 ms quiescence fire as the single batch [10, 20, 30], with no
rejection and an empty window afterwards. -/
theorem C3_debounce_single_batch_witness :
    ([(50, 20), (99, 30)] : List (Nat × Nat)).length + 1 ≤ 15 ∧
    (EnhancedBot.run 100 EnhancedBot.initState
        [((0 : Nat), (10 : Nat)), (50, 20), (99, 30)]).fired = [] ∧
    (EnhancedBot.run 100 EnhancedBot.initState
        [((0 : Nat), (10 : Nat)), (50, 20), (99, 30)]).rejected = [] ∧
    (EnhancedBot.finalize (EnhancedBot.run 100 EnhancedBot.initState
        [((0 : Nat), (10 : Nat)), (50, 20), (99, 30)])).fired = [[10, 20, 30]] ∧
    (EnhancedBot.finalize (EnhancedBot.run 100 EnhancedBot.initState
        [((0 : Nat), (10 : Nat)), (50, 20), (99, 30)])).files = [] :=
  have h := C3_debounce_single_batch 100 0 (10 : Nat) [(50, 20), (99, 30)]
    (by decide)
    ((EnhancedBot.gapsOk_iff_chain 100 [((0 : Nat), (10 : Nat)), (50, 20), (99, 30)]).mp
      (by decide))
  ⟨by decide, h.1, h.2.1, h.2.2.1, h.2.2.2.1⟩

open EnhancedBot in
/-- C9: a submission for a key whose buffered batch already holds 15
files is rejected with a notification: the buffered list, the pending
timer, the waiting-message state and the fired batches are all left
unchanged, and the rejected file is recorded in no window. -/
theorem C9_reject_frame {α : Type} (q t : Nat) (f : α) (s : SchedState α)
    (h : 15 ≤ s.files.length) :
    (arrive q t f s).files = s.files ∧
    (arrive q t f s).timer = s.timer ∧
    (arrive q t f s).waitingMsg = s.waitingMsg ∧
    (arrive q t f s).fired = s.fired ∧
    (arrive q t f s).rejected = s.rejected ++ [f] := by
  unfold arrive
  rw [if_pos h]
  exact ⟨rfl, rfl, rfl, rfl, rfl⟩

/-- Witness for C9 at a concrete full window. -/
theorem C9_reject_frame_witness :
    15 ≤ (List.range 15).length ∧
    (EnhancedBot.arrive 100 7 (42 : Nat)
        ⟨List.range 15, some 55, true, [[1, 2]], [41]⟩).files = List.range 15 ∧
    (EnhancedBot.arrive 100 7 (42 : Nat)
        ⟨List.range 15, some 55, true, [[1, 2]], [41]⟩).timer = some 55 ∧
    (EnhancedBot.arrive 100 7 (42 : Nat)
        ⟨List.range 15, some 55, true, [[1, 2]], [41]⟩).rejected = [41, 42] :=
  have h := C9_reject_frame 100 7 (42 : Nat)
    ⟨List.range 15, some 55, true, [[1, 2]], [41]⟩ (by decide)
  ⟨by decide, h.1, h.2.1, by simpa using h.2.2.2.2⟩

open EnhancedBot in
/-- C7: the cleanup law fails on the delivery-failure path.  In a batch
whose single file downloads, validates and converts successfully but
whose `send_document` raises, the converted `.tgs` file stays on disk:
its `os.unlink` sits after the awaited send inside the `try` block, so
the `except` handler skips it.  With delivery succeeding, the same run
leaves the disk clean. -/
theorem C7_delivery_failure_leaks_output :
    processUserBatchDisk leakEnv ["sticker.svg"] [] = ["out0.tgs"] ∧
    processUserBatchDisk leakEnv ["sticker.svg"] [] ≠ [] ∧
    processUserBatchDisk okSendEnv ["sticker.svg"] [] = [] := by
  decide

namespace SvgValidator

theorem validate_svg_file_cases (pr : ParseResult) :
    (validate_svg_file pr).1 = false ∨
    validate_svg_file pr = (true, "SVG is valid for TGS conversion.") := by
  cases pr with
  | parseError => exact Or.inl rfl
  | exn m => exact Or.inl rfl
  | ok doc =>
    simp only [validate_svg_file]
    split
    · exact Or.inl rfl
    · split
      · split
        · exact Or.inl rfl
        · split
          · exact Or.inl rfl
          · exact Or.inr rfl
      · exact Or.inl rfl

end SvgValidator

/-- C8 counterexample: a parsed 512×512 SVG document passes validation
with `ok = true`, yet the returned reason string is not empty — it is
the fixed success message. -/
theorem C8_ok_reason_nonempty_counterexample :
    (SvgValidator.validate_svg_file (.ok validDoc)).1 = true ∧
    (SvgValidator.validate_svg_file (.ok validDoc)).2 ≠ "" := by
  decide

/-- C8 (amended): whenever the validator returns `ok = true`, the reason
string is the fixed non-empty message `"SVG is valid for TGS
conversion."` rather than the empty string. -/
theorem C8_ok_reason_fixed_message (pr : SvgValidator.ParseResult)
    (h : (SvgValidator.validate_svg_file pr).1 = true) :
    (SvgValidator.validate_svg_file pr).2 = "SVG is valid for TGS conversion." := by
  rcases SvgValidator.validate_svg_file_cases pr with h1 | h1
  · rw [h1] at h
    exact absurd h (by simp)
  · rw [h1]

/-- Witness for the amended C8 at the concrete valid document. -/
theorem C8_ok_reason_fixed_message_witness :
    (SvgValidator.validate_svg_file (.ok validDoc)).1 = true ∧
    (SvgValidator.validate_svg_file (.ok validDoc)).2
      = "SVG is valid for TGS conversion." :=
  ⟨by decide, C8_ok_reason_fixed_message (.ok validDoc) (by decide)⟩

namespace Database

theorem roundHalfEven_abs (y : ℚ) : |(roundHalfEven y : ℚ) - y| ≤ 1/2 := by
  have h0 : 0 ≤ Int.fract y := Int.fract_nonneg y
  have h1 : Int.fract y < 1 := Int.fract_lt_one y
  have hfl : y - (⌊y⌋ : ℚ) = Int.fract y := Int.self_sub_floor y
  unfold roundHalfEven
  split
  · next hc =>
    rw [abs_le]
    constructor <;> linarith
  · next hc =>
    split
    · next hc2 =>
      rw [abs_le]
      push_cast
      constructor <;> linarith
    · next hc2 =>
      split
      · rw [abs_le]
        constructor <;> linarith
      · rw [abs_le]
        push_cast
        constructor <;> linarith

end Database

/-- C10: computing the statistics success rate never divides by zero —
with zero total conversions the reported rate is exactly 0 — and with a
positive total it is the success percentage rounded to two decimal
places: an integer number of hundredths within half a hundredth of the
exact percentage. -/
theorem C10_success_rate_no_div_by_zero :
    (∀ s : Nat, Database.successRate s 0 = 0) ∧
    (∀ s t : Nat, 0 < t →
      |Database.successRate s t - (s : ℚ) / (t : ℚ) * 100| ≤ 1 / 200) ∧
    (∀ s t : Nat, ∃ k : ℤ, Database.successRate s t = (k : ℚ) / 100) := by
  refine ⟨?_, ?_, ?_⟩
  · intro s
    norm_num [Database.successRate, Database.pyRound2, Database.roundHalfEven,
      Int.fract_zero]
  · intro s t ht
    simp only [Database.successRate, Database.pyRound2]
    rw [if_pos ht]
    have habs := Database.roundHalfEven_abs ((s : ℚ) / (t : ℚ) * 100 * 100)
    have hsplit : (Database.roundHalfEven ((s : ℚ) / (t : ℚ) * 100 * 100) : ℚ) / 100
          - (s : ℚ) / (t : ℚ) * 100
        = ((Database.roundHalfEven ((s : ℚ) / (t : ℚ) * 100 * 100) : ℚ)
            - (s : ℚ) / (t : ℚ) * 100 * 100) / 100 := by
      ring
    rw [hsplit, abs_div]
    rw [show |(100 : ℚ)| = 100 from by norm_num]
    linarith
  · intro s t
    exact ⟨Database.roundHalfEven _, rfl⟩

/-- Witness for C10 at one successful conversion out of three. -/
theorem C10_success_rate_witness :
    (0 : Nat) < 3 ∧
    |Database.successRate 1 3 - ((1 : Nat) : ℚ) / ((3 : Nat) : ℚ) * 100| ≤ 1 / 200 :=
  ⟨by norm_num, C10_success_rate_no_div_by_zero.2.1 1 3 (by norm_num)⟩
